import Mathlib

/-!
Shallow embedding of the APDU dispatch engine of `apdu-dispatch`
(`src/components/apdu-dispatch/src/dispatch.rs`).

The dispatcher sits between two transport channels (contact and
contactless) and a list of applications identified by AID.  Machine
bytes are modelled as `Nat`, byte strings as `List Nat`.  Rust panics
(`unwrap`, `expect`, `panic!`) are modelled by the `Except PanicKind`
monad, with one `PanicKind` constructor per panic site so that the
reachability of individual panic branches can be stated.

The model is parametric in the compile-time capacities that live
outside the sources at hand:
  `C` — command data capacity (`COMMAND_MAX`, typical 7609),
  `N` — transport message capacity (`interchanges::SIZE` /
        `TRANSPORT_MAX`, typical 3072),
  `R` — response payload capacity (`RESPONSE_MAX`, typical 3072),
and in the byte-level APDU parser `P` (the `iso7816::Command::try_from`
collaborator), mirroring the fact that `dispatch.rs` is generic over
these collaborators.
-/

namespace ApduDispatch

/-- The two physical channels (`iso7816::Interface`). -/
inductive Interface where
  | contact
  | contactless
deriving DecidableEq, Repr

/-- The four rendezvous states of a transport channel
(`interchange::State`), with the pending byte message attached to the
`requested` and `responded` states. -/
inductive ChanState where
  | idle
  | requested (msg : List Nat)
  | processing
  | responded (msg : List Nat)
deriving DecidableEq, Repr

/-- True exactly in the `requested` state. -/
def ChanState.isRequested : ChanState → Bool
  | .requested _ => true
  | _ => false

/-- True exactly in the `responded` state. -/
def ChanState.isResponded : ChanState → Bool
  | .responded _ => true
  | _ => false

/-- Parse-error kinds of the APDU parser (`iso7816::command::FromSliceError`). -/
inductive FromSliceError where
  | tooShort
  | invalidClass
  | invalidFirstBodyByteForExtended
  | canThisReallyOccur
deriving DecidableEq, Repr

/-- One constructor per panic site of `dispatch.rs` (and of the
collaborator calls it unwraps). -/
inductive PanicKind where
  | unexpectedBufferState
  | findAppUnwrap
  | aidUnwrap
  | dataUnwrap
  | respondExpect
deriving DecidableEq, Repr

/-- A parsed APDU (`iso7816::Command`): class, instruction, P1, P2,
data field and expected response length. -/
structure Command where
  cla : Nat
  ins : Nat
  p1 : Nat
  p2 : Nat
  data : List Nat
  le : Nat
deriving DecidableEq, Repr

/-- The result of `iso7816::Command::try_from(&[0,0,0,0]).unwrap()`:
a header-only command with empty body. -/
def Command.empty : Command :=
  { cla := 0, ins := 0, p1 := 0, p2 := 0, data := [], le := 0 }

/-- The class byte's command-chaining bit (`class().chain().not_the_last()`):
bit `0x10` set means more blocks follow. -/
def Command.chainNotLast (c : Command) : Bool :=
  decide (c.cla &&& 0x10 ≠ 0)

/-- Modelled from the spec: `iso7816::Aid::try_from_slice` is not among
the sources; per spec section 3 an AID is an opaque byte string of 5 to
16 bytes, so conversion succeeds exactly on that length range. -/
def Aid.try_from_slice (s : List Nat) : Option (List Nat) :=
  if 5 ≤ s.length ∧ s.length ≤ 16 then some s else none

/-- Modelled from the spec: `iso7816::Command::extend_from_command` is
not among the sources.  Per spec section 3 extension appends the other
command's data payload; the header and Le carried by the accumulated
command are the ones of the incoming block (the buffer is initialised
from the zero command, so the assembled request carries the real
blocks' header, with the final block's class — whose chaining bit is
clear — winning, as required by spec property P3).  Appending is
all-or-nothing against capacity `C`, as for `heapless` vectors. -/
def Command.extend_from_command (C : Nat) (self other : Command) : Command :=
  if self.data.length + other.data.length ≤ C then
    { cla := other.cla, ins := other.ins, p1 := other.p1, p2 := other.p2,
      data := self.data ++ other.data, le := other.le }
  else self

/-- Classification of a freshly parsed APDU (`RequestType`). -/
inductive RequestType where
  | select (aid : List Nat)
  | getResponse
  | newCommand
  | none
deriving DecidableEq, Repr

/-- The three-state command buffer (`RawApduBuffer`). -/
inductive RawApduBuffer where
  | none
  | request (c : Command)
  | response (d : List Nat)
deriving DecidableEq, Repr

/-- True exactly on the `request` arm. -/
def RawApduBuffer.isRequest : RawApduBuffer → Bool
  | .request _ => true
  | _ => false

/-- True exactly on the `none` arm. -/
def RawApduBuffer.isNone : RawApduBuffer → Bool
  | .none => true
  | _ => false

/-- Data of the request being accumulated, if any. -/
def RawApduBuffer.requestData : RawApduBuffer → Option (List Nat)
  | .request c => some c.data
  | _ => Option.none

/-- Data of the request being accumulated, or `[]` outside the
`request` arm. -/
def RawApduBuffer.pendingData : RawApduBuffer → List Nat
  | .request c => c.data
  | _ => []

/-- `ApduBuffer::request`: append to an accumulating request, or start
a new one (from the zero command) over an empty buffer or a stale
response. -/
def buffer_request (C : Nat) (buf : RawApduBuffer) (command : Command) : RawApduBuffer :=
  match buf with
  | .request buffered => .request (Command.extend_from_command C buffered command)
  | _ => .request (Command.extend_from_command C Command.empty command)

/-- An application (the `App` trait): its advertised AID prefix and
its `select` and `call` entry points, returning either a response
payload or an error status word. -/
structure AppSpec where
  aid : List Nat
  select : Command → Except Nat (List Nat)
  call : Interface → Command → Except Nat (List Nat)

/-- Observable invocations of application methods during a poll; the
`Nat` is the application's index in the list passed to `poll`. -/
inductive AppEvent where
  | select (i : Nat) (c : Command)
  | call (i : Nat) (iface : Interface) (c : Command)
  | deselect (i : Nat)
deriving DecidableEq, Repr

/-- The dispatcher state (`ApduDispatch`), with the two channel
rendezvous states inlined. -/
structure DispatchState where
  current_aid : Option (List Nat)
  current_interface : Interface
  buffer : RawApduBuffer
  was_request_chained : Bool
  contact : ChanState
  contactless : ChanState
deriving DecidableEq, Repr

/-- The state produced by `ApduDispatch::new`. -/
def DispatchState.initial : DispatchState :=
  { current_aid := Option.none
    current_interface := .contact
    buffer := .none
    was_request_chained := false
    contact := .idle
    contactless := .idle }

/-- Read one channel's rendezvous state. -/
def getChan (s : DispatchState) : Interface → ChanState
  | .contact => s.contact
  | .contactless => s.contactless

/-- Replace one channel's rendezvous state. -/
def setChan (s : DispatchState) (i : Interface) (c : ChanState) : DispatchState :=
  match i with
  | .contact => { s with contact := c }
  | .contactless => { s with contactless := c }

/-- Big-endian SW1/SW2 bytes of a 16-bit status word. -/
def statusToBytes (w : Nat) : List Nat :=
  [w / 256 % 256, w % 256]

/-- Helper of `find_app`: scan front to back, tracking the index. -/
def find_app_from (aid : List Nat) (apps : List AppSpec) (i : Nat) : Option (Nat × AppSpec) :=
  match apps with
  | [] => Option.none
  | a :: rest =>
      if List.isPrefixOf a.aid aid then some (i, a)
      else find_app_from aid rest (i + 1)

/-- `ApduDispatch::find_app`: first application whose advertised AID is
a prefix of the queried AID (`aid.starts_with(app.aid())`), together
with its index in the list. -/
def find_app (aid : Option (List Nat)) (apps : List AppSpec) : Option (Nat × AppSpec) :=
  match aid with
  | Option.none => Option.none
  | some a => find_app_from a apps 0

/-- `ApduDispatch::apdu_type`: SELECT by DF name when `ins = 0xA4` and
`P1 & 0x04 != 0` (unwrapping the AID conversion), GET RESPONSE when
`ins = 0xC0`, otherwise an ordinary command. -/
def apdu_type (apdu : Command) : Except PanicKind RequestType :=
  if apdu.ins = 0xA4 ∧ apdu.p1 &&& 0x04 ≠ 0 then
    match Aid.try_from_slice apdu.data with
    | some aid => .ok (.select aid)
    | Option.none => .error .aidUnwrap
  else if apdu.ins = 0xC0 then .ok .getResponse
  else .ok .newCommand

/-- `ApduDispatch::busy`: some channel is neither idle nor merely
holding an unread request. -/
def busy (s : DispatchState) : Bool :=
  let contactless_busy :=
    match s.contactless with
    | .idle | .requested _ => false
    | _ => true
  let contact_busy :=
    match s.contact with
    | .idle | .requested _ => false
    | _ => true
  contactless_busy || contact_busy

/-- `Responder::respond(..).expect(..)` on a given channel: legal only
in the `processing` state, panicking otherwise. -/
def respondOn (s : DispatchState) (i : Interface) (msg : List Nat) :
    Except PanicKind DispatchState :=
  match getChan s i with
  | .processing => .ok (setChan s i (.responded msg))
  | _ => .error .respondExpect

/-- `ApduDispatch::respond`: reply on the interface of the in-flight
transaction. -/
def respondCur (s : DispatchState) (msg : List Nat) : Except PanicKind DispatchState :=
  respondOn s s.current_interface msg

/-- `ApduDispatch::parse_apdu`, parametric in the byte-level parser
`P` (`iso7816::Command::try_from`): every parse-error kind collapses to
status `0x6F00` (UnspecifiedCheckingError). -/
def parse_apdu (P : List Nat → Except FromSliceError Command) (message : List Nat) :
    Except Nat Command :=
  match P message with
  | .ok command => .ok command
  | .error _ => .error 0x6F00

/-- `ApduDispatch::buffer_chained_apdu_if_needed`: record the
interface; on a non-final block acknowledge with `0x9000` and buffer;
on a final block either absorb it into an accumulating request (always
classified as an ordinary command, marking the response as chained) or
classify it alone, clearing the chained flag when the buffer was empty
and buffering it unless it is a GET RESPONSE. -/
def buffer_chained_apdu_if_needed (C : Nat) (s : DispatchState) (command : Command)
    (iface : Interface) : Except PanicKind (RequestType × DispatchState) :=
  let s := { s with current_interface := iface }
  if command.chainNotLast = false then
    if s.buffer.isRequest then
      .ok (RequestType.newCommand,
        { s with buffer := buffer_request C s.buffer command, was_request_chained := true })
    else
      let s := if s.buffer.isNone then { s with was_request_chained := false } else s
      match apdu_type command with
      | .error e => .error e
      | .ok t =>
          match t with
          | .getResponse => .ok (t, s)
          | _ => .ok (t, { s with buffer := buffer_request C s.buffer command })
  else
    match respondOn s iface (statusToBytes 0x9000) with
    | .ok s' => .ok (RequestType.none, { s' with buffer := buffer_request C s'.buffer command })
    | .error e => .error e

/-- `ApduDispatch::check_for_request`: when not busy, take a request
(contactless first), parse it, and either hand it to the chaining
logic or answer the parse error with `0x6F00` on the originating
channel. -/
def check_for_request (C : Nat) (P : List Nat → Except FromSliceError Command)
    (s : DispatchState) : Except PanicKind (RequestType × DispatchState) :=
  if busy s then .ok (RequestType.none, s)
  else
    let taken : Option (List Nat × Interface × DispatchState) :=
      match s.contactless with
      | .requested msg => some (msg, .contactless, { s with contactless := .processing })
      | _ =>
          match s.contact with
          | .requested msg => some (msg, .contact, { s with contact := .processing })
          | _ => Option.none
    match taken with
    | Option.none => .ok (RequestType.none, s)
    | some (msg, iface, s) =>
        match parse_apdu P msg with
        | .ok command => buffer_chained_apdu_if_needed C s command iface
        | .error sw =>
            match respondOn s iface (statusToBytes sw) with
            | .ok s' => .ok (RequestType.none, s')
            | .error e => .error e

/-- `ApduDispatch::reply_error`: send a status-word-only message and
clear the buffer. -/
def reply_error (s : DispatchState) (sw : Nat) : Except PanicKind DispatchState :=
  match respondCur s (statusToBytes sw) with
  | .ok s' => .ok { s' with buffer := .none }
  | .error e => .error e

/-- `ApduDispatch::handle_reply`: one drain step.  A spurious call with
no pending response answers `0x6F00` and clears the buffer.  With a
pending response, chain mode (chained request, or payload longer than
the transport capacity `N`) emits up to 256 bytes plus a `61XX`/`9000`
status word, keeping the remainder; otherwise the whole payload plus
`9000` goes out in one message.  The `heapless` fallibility is kept:
building an oversized transport message panics (`dataUnwrap`), and a
status-word append that does not fit is silently dropped. -/
def handle_reply (N R : Nat) (s : DispatchState) : Except PanicKind DispatchState :=
  match s.buffer with
  | .request _ => respondCur { s with buffer := .none } (statusToBytes 0x6F00)
  | .none => respondCur { s with buffer := .none } (statusToBytes 0x6F00)
  | .response res =>
      if s.was_request_chained = true ∨ N < res.length then
        let boundary := min 256 res.length
        let to_send := res.take boundary
        let remaining := res.drop boundary
        if to_send.length ≤ N then
          let return_code :=
            if 255 < remaining.length then 0x6100
            else if 0 < remaining.length then 0x6100 + remaining.length
            else 0x9000
          let message :=
            if to_send.length + 2 ≤ N then to_send ++ statusToBytes return_code
            else to_send
          if return_code = 0x9000 then
            respondCur { s with buffer := .none } message
          else
            if remaining.length ≤ R then
              respondCur { s with buffer := .response remaining } message
            else .error .dataUnwrap
        else .error .dataUnwrap
      else
        let res2 := if res.length + 2 ≤ R then res ++ [0x90, 0x00] else res
        if res2.length ≤ N then
          respondCur { s with buffer := .none } res2
        else .error .dataUnwrap

/-- `ApduDispatch::handle_app_response`: install a successful payload
as the buffered response and drain immediately, or echo the
application's error status. -/
def handle_app_response (N R : Nat) (s : DispatchState) (result : Except Nat (List Nat)) :
    Except PanicKind DispatchState :=
  match result with
  | .ok data => handle_reply N R { s with buffer := .response data }
  | .error sw => reply_error s sw

/-- `ApduDispatch::handle_app_select`: deselect a differently-selected
application first (unwrapping its lookup), then look up the requested
AID; on a hit, pass the buffered request to `select` (panicking if the
buffer does not hold a request) and commit the AID on success; on a
miss, answer `0x6A82`. -/
def handle_app_select (N R : Nat) (s : DispatchState) (apps : List AppSpec)
    (aid : List Nat) : Except PanicKind (DispatchState × List AppEvent) :=
  let step : Except PanicKind (DispatchState × List AppEvent) :=
    match s.current_aid with
    | some cur =>
        if cur = aid then .ok (s, [])
        else
          match find_app (some cur) apps with
          | some (i, _) => .ok ({ s with current_aid := Option.none }, [AppEvent.deselect i])
          | Option.none => .error .findAppUnwrap
    | Option.none => .ok (s, [])
  match step with
  | .error e => .error e
  | .ok (s1, evs) =>
      match find_app (some aid) apps with
      | some (i, app) =>
          match s1.buffer with
          | .request apdu =>
              let result := app.select apdu
              let s2 :=
                match result with
                | .ok _ => { s1 with current_aid := some aid }
                | .error _ => s1
              match handle_app_response N R s2 result with
              | .ok s' => .ok (s', evs ++ [AppEvent.select i apdu])
              | .error e => .error e
          | _ => .error .unexpectedBufferState
      | Option.none =>
          match reply_error s1 0x6A82 with
          | .ok s' => .ok (s', evs)
          | .error e => .error e

/-- `ApduDispatch::handle_app_command`: forward the buffered request to
the selected application's `call` (panicking if the buffer does not
hold a request); with nothing selected, answer `0x6A82`. -/
def handle_app_command (N R : Nat) (s : DispatchState) (apps : List AppSpec) :
    Except PanicKind (DispatchState × List AppEvent) :=
  match find_app s.current_aid apps with
  | some (i, app) =>
      match s.buffer with
      | .request apdu =>
          let result := app.call s.current_interface apdu
          match handle_app_response N R s result with
          | .ok s' => .ok (s', [AppEvent.call i s.current_interface apdu])
          | .error e => .error e
      | _ => .error .unexpectedBufferState
  | Option.none =>
      match reply_error s 0x6A82 with
      | .ok s' => .ok (s', [])
      | .error e => .error e

/-- `ApduDispatch::poll`: one external tick — intake and
classification, dispatch on the classification, then report which
channel (contactless first) holds a response awaiting pickup.  Also
returns the application events observed during the tick. -/
def poll (C N R : Nat) (P : List Nat → Except FromSliceError Command)
    (s : DispatchState) (apps : List AppSpec) :
    Except PanicKind (DispatchState × List AppEvent × Option Interface) :=
  match check_for_request C P s with
  | .error e => .error e
  | .ok (rt, s1) =>
      let step : Except PanicKind (DispatchState × List AppEvent) :=
        match rt with
        | .select aid => handle_app_select N R s1 apps aid
        | .getResponse =>
            match handle_reply N R s1 with
            | .ok s' => .ok (s', [])
            | .error e => .error e
        | .newCommand => handle_app_command N R s1 apps
        | .none => .ok (s1, [])
      match step with
      | .error e => .error e
      | .ok (s2, evs) =>
          let ret : Option Interface :=
            if s2.contactless.isResponded then some Interface.contactless
            else if s2.contact.isResponded then some Interface.contact
            else Option.none
          .ok (s2, evs, ret)

/-- Environment and poll steps for executions from the initial state:
the reader posts a request into an idle channel, reclaims a posted
response, or the caller runs one `poll`. -/
inductive Step where
  | post (i : Interface) (msg : List Nat)
  | collect (i : Interface)
  | poll (apps : List AppSpec)

/-- Reader side of the rendezvous: a request can be posted only into an
idle channel. -/
def envPost (s : DispatchState) (i : Interface) (msg : List Nat) : DispatchState :=
  match getChan s i with
  | .idle => setChan s i (.requested msg)
  | _ => s

/-- Reader side of the rendezvous: reclaim a pending response. -/
def envCollect (s : DispatchState) (i : Interface) : DispatchState :=
  match getChan s i with
  | .responded _ => setChan s i .idle
  | _ => s

/-- Run a sequence of environment and poll steps from a given state. -/
def runSteps (C N R : Nat) (P : List Nat → Except FromSliceError Command)
    (s : DispatchState) : List Step → Except PanicKind DispatchState
  | [] => .ok s
  | .post i msg :: rest => runSteps C N R P (envPost s i msg) rest
  | .collect i :: rest => runSteps C N R P (envCollect s i) rest
  | .poll apps :: rest =>
      match poll C N R P s apps with
      | .ok (s', _, _) => runSteps C N R P s' rest
      | .error e => .error e

/-- Run a sequence of steps from the freshly constructed dispatcher. -/
def runFromInit (C N R : Nat) (P : List Nat → Except FromSliceError Command)
    (steps : List Step) : Except PanicKind DispatchState :=
  runSteps C N R P DispatchState.initial steps

/-- Modelled from the spec: the byte-level APDU parser
(`iso7816::Command::try_from`, not among the sources).  Spec sections
4.2 and the glossary fix the layout: header `CLA INS P1 P2`, then for
short APDUs either no body, a lone `Le` byte (`0` meaning 256), an
`Lc`-prefixed data field, or an `Lc`-prefixed data field followed by a
trailing `Le` byte.  Messages shorter than a header fail with
`tooShort`; other byte layouts (the extended forms, unused by the
scenarios) are rejected. -/
def parseAPDU (msg : List Nat) : Except FromSliceError Command :=
  match msg with
  | cla :: ins :: p1 :: p2 :: body =>
      match body with
      | [] => .ok { cla := cla, ins := ins, p1 := p1, p2 := p2, data := [], le := 0 }
      | [le] => .ok { cla := cla, ins := ins, p1 := p1, p2 := p2, data := [],
                      le := if le = 0 then 256 else le }
      | lc :: rest =>
          if 0 < lc ∧ rest.length = lc then
            .ok { cla := cla, ins := ins, p1 := p1, p2 := p2, data := rest, le := 0 }
          else if 0 < lc ∧ rest.length = lc + 1 then
            .ok { cla := cla, ins := ins, p1 := p1, p2 := p2, data := rest.take lc,
                  le := match rest.getLast? with
                        | some 0 => 256
                        | some le => le
                        | Option.none => 0 }
          else .error .invalidFirstBodyByteForExtended
  | _ => .error .tooShort

/-- True exactly when an execution ended in the
`"Unexpected buffer state."` panic. -/
def isUnexpectedBufferPanic {α : Type} : Except PanicKind α → Bool
  | .error .unexpectedBufferState => true
  | _ => false

/-- A message `msg` is the one the intake phase will pick up, on
interface `iface`: either it waits on the contactless channel, or it
waits on the contact channel with no contactless request (contactless
has priority). -/
def arrives (s : DispatchState) (msg : List Nat) : Interface → Prop
  | .contactless => s.contactless = .requested msg
  | .contact => s.contactless.isRequested = false ∧ s.contact = .requested msg

theorem getChan_setChan (s : DispatchState) (i : Interface) (c : ChanState) :
    getChan (setChan s i c) i = c := by
  cases i <;> rfl

theorem buffer_setChan (s : DispatchState) (i : Interface) (c : ChanState) :
    (setChan s i c).buffer = s.buffer := by
  cases i <;> rfl

theorem aid_setChan (s : DispatchState) (i : Interface) (c : ChanState) :
    (setChan s i c).current_aid = s.current_aid := by
  cases i <;> rfl

theorem flag_setChan (s : DispatchState) (i : Interface) (c : ChanState) :
    (setChan s i c).was_request_chained = s.was_request_chained := by
  cases i <;> rfl

theorem iface_setChan (s : DispatchState) (i : Interface) (c : ChanState) :
    (setChan s i c).current_interface = s.current_interface := by
  cases i <;> rfl

theorem find_app_from_eq_none (aid : List Nat) (apps : List AppSpec) (i : Nat)
    (h : ∀ a ∈ apps, List.isPrefixOf a.aid aid = false) :
    find_app_from aid apps i = Option.none := by
  induction apps generalizing i with
  | nil => rfl
  | cons a rest ih =>
      unfold find_app_from
      rw [if_neg]
      · exact ih (i + 1) (fun b hb => h b (List.mem_cons_of_mem a hb))
      · simp [h a (List.mem_cons_self a rest)]

theorem find_app_eq_none (aid : List Nat) (apps : List AppSpec)
    (h : ∀ a ∈ apps, List.isPrefixOf a.aid aid = false) :
    find_app (some aid) apps = Option.none :=
  find_app_from_eq_none aid apps 0 h

/-- C10: classifying a SELECT-by-DF-name command unwraps the AID
conversion of its data field; for every well-parsed APDU with
instruction `0xA4`, `P1 & 0x04 != 0` and a data field longer than the
maximum AID length (16 bytes), `apdu_type` panics instead of producing
an error status. -/
theorem apdu_type_oversized_select_panics (apdu : Command)
    (hins : apdu.ins = 0xA4) (hp1 : apdu.p1 &&& 0x04 ≠ 0)
    (hlen : 16 < apdu.data.length) :
    apdu_type apdu = .error .aidUnwrap := by
  unfold apdu_type
  rw [if_pos ⟨hins, hp1⟩]
  unfold Aid.try_from_slice
  rw [if_neg (by omega)]

/-- Witness for C10: a SELECT by DF name with a 17-byte data field. -/
theorem apdu_type_oversized_select_panics_witness :
    apdu_type { cla := 0, ins := 0xA4, p1 := 0x04, p2 := 0,
                data := List.replicate 17 0xA0, le := 0 } = .error .aidUnwrap :=
  apdu_type_oversized_select_panics _ rfl (by decide) (by simp)

/-- C9: when a SELECT arrives for an AID different from the currently
selected one, the deselect step looks the current application up and
unwraps the result; if no application in the list advertises a prefix
of the current AID, `handle_app_select` panics instead of returning an
error status. -/
theorem handle_app_select_missing_current_panics (N R : Nat) (s : DispatchState)
    (apps : List AppSpec) (aid cur : List Nat)
    (hcur : s.current_aid = some cur) (hne : cur ≠ aid)
    (hmiss : ∀ a ∈ apps, List.isPrefixOf a.aid cur = false) :
    handle_app_select N R s apps aid = .error .findAppUnwrap := by
  simp only [handle_app_select, hcur, if_neg hne, find_app_eq_none cur apps hmiss]

/-- Witness for C9: an application is selected but the list passed to
the dispatcher contains only an application with an unrelated AID. -/
theorem handle_app_select_missing_current_panics_witness :
    handle_app_select 3072 3072
      { current_aid := some [1, 2, 3, 4, 5]
        current_interface := .contact
        buffer := .request Command.empty
        was_request_chained := false
        contact := .processing
        contactless := .idle }
      [{ aid := [9, 9, 9, 9, 9], select := fun _ => .ok [], call := fun _ _ => .ok [] }]
      [7, 7, 7, 7, 7] = .error .findAppUnwrap := by
  exact handle_app_select_missing_current_panics 3072 3072 _ _ _ [1, 2, 3, 4, 5]
    rfl (by decide) (by intro a ha; simp at ha; subst ha; rfl)

theorem setChan_setChan (s : DispatchState) (i : Interface) (c1 c2 : ChanState) :
    setChan (setChan s i c1) i c2 = setChan s i c2 := by
  cases i <;> rfl

theorem not_busy_contactless (s : DispatchState) (h : busy s = false) :
    s.contactless.isResponded = false := by
  cases hcl : s.contactless <;> simp [busy, hcl, ChanState.isResponded] at h ⊢

theorem not_busy_contact (s : DispatchState) (h : busy s = false) :
    s.contact.isResponded = false := by
  cases hcl : s.contact <;> simp [busy, hcl, ChanState.isResponded] at h ⊢

/-- Intake: when the dispatcher is not busy and `msg` is the message
its priority rule will pick up on `iface`, `check_for_request` moves
that channel to `processing` and continues with parsing. -/
theorem check_for_request_arrives (C : Nat) (P : List Nat → Except FromSliceError Command)
    (s : DispatchState) (msg : List Nat) (iface : Interface)
    (hbusy : busy s = false) (harr : arrives s msg iface) :
    check_for_request C P s =
      match parse_apdu P msg with
      | .ok command => buffer_chained_apdu_if_needed C (setChan s iface .processing) command iface
      | .error sw =>
          match respondOn (setChan s iface .processing) iface (statusToBytes sw) with
          | .ok s' => .ok (RequestType.none, s')
          | .error e => .error e := by
  cases iface with
  | contactless =>
      have h : s.contactless = .requested msg := harr
      simp only [check_for_request, hbusy, Bool.false_eq_true, if_false, h, setChan]
  | contact =>
      obtain ⟨h1, h2⟩ := harr
      cases hcl : s.contactless with
      | requested m => simp [ChanState.isRequested, hcl] at h1
      | idle => simp only [check_for_request, hbusy, Bool.false_eq_true, if_false, hcl, h2, setChan]
      | processing => simp [busy, hcl] at hbusy
      | responded m => simp [busy, hcl] at hbusy

/-- C6: an inbound message that fails to parse (any parse-error kind)
is answered on its originating channel with the status-word-only
message `0x6F00`; the buffer, selection, chained flag and interface
field are untouched and no application method runs. -/
theorem poll_parse_error (C N R : Nat) (P : List Nat → Except FromSliceError Command)
    (s : DispatchState) (apps : List AppSpec) (msg : List Nat) (iface : Interface)
    (e : FromSliceError)
    (hbusy : busy s = false) (harr : arrives s msg iface) (hP : P msg = .error e) :
    poll C N R P s apps =
        .ok (setChan s iface (.responded (statusToBytes 0x6F00)), [], some iface)
      ∧ (setChan s iface (.responded (statusToBytes 0x6F00))).buffer = s.buffer
      ∧ (setChan s iface (.responded (statusToBytes 0x6F00))).current_aid = s.current_aid
      ∧ (setChan s iface (.responded (statusToBytes 0x6F00))).was_request_chained
          = s.was_request_chained
      ∧ (setChan s iface (.responded (statusToBytes 0x6F00))).current_interface
          = s.current_interface := by
  have hc := check_for_request_arrives C P s msg iface hbusy harr
  simp only [parse_apdu, hP] at hc
  rw [respondOn, getChan_setChan, setChan_setChan] at hc
  refine ⟨?_, buffer_setChan s iface _, aid_setChan s iface _, flag_setChan s iface _,
    iface_setChan s iface _⟩
  simp only [poll, hc]
  cases iface with
  | contactless =>
      simp [setChan, ChanState.isResponded]
  | contact =>
      cases hcl : s.contactless with
      | idle => simp [setChan, ChanState.isResponded, hcl]
      | requested m => simp [setChan, ChanState.isResponded, hcl]
      | processing => simp [busy, hcl] at hbusy
      | responded m => simp [busy, hcl] at hbusy

/-- Witness for C6: a one-byte message (too short to parse) waiting on
the contact channel of a freshly constructed dispatcher. -/
theorem poll_parse_error_witness :
    poll 7609 3072 3072 parseAPDU
        { DispatchState.initial with contact := .requested [0] } [] =
      .ok (setChan { DispatchState.initial with contact := .requested [0] } .contact
            (.responded (statusToBytes 0x6F00)), [], some .contact) := by
  exact (poll_parse_error 7609 3072 3072 parseAPDU
    { DispatchState.initial with contact := .requested [0] } [] [0] .contact .tooShort
    rfl ⟨rfl, rfl⟩ rfl).1

theorem getChan_update_buffer (s : DispatchState) (b : RawApduBuffer) (i : Interface) :
    getChan { s with buffer := b } i = getChan s i := by
  cases i <;> rfl

theorem handle_reply_chain_drain_core (N R : Nat) (s : DispatchState) (res : List Nat)
    (hbuf : s.buffer = .response res)
    (hmode : s.was_request_chained = true ∨ N < res.length)
    (hN : 258 ≤ N) (hR : res.length ≤ R)
    (hch : getChan s s.current_interface = .processing) :
    handle_reply N R s =
      .ok (setChan
        { s with buffer :=
            if res.length - min 256 res.length = 0 then RawApduBuffer.none
            else RawApduBuffer.response (res.drop (min 256 res.length)) }
        s.current_interface
        (.responded (res.take (min 256 res.length) ++
          statusToBytes
            (if 255 < res.length - min 256 res.length then 0x6100
             else if 0 < res.length - min 256 res.length then
               0x6100 + (res.length - min 256 res.length)
             else 0x9000)))) := by
  simp only [handle_reply, hbuf, List.length_take, List.length_drop]
  rw [if_pos hmode]
  rw [if_pos (show min (min 256 res.length) res.length ≤ N by omega)]
  rw [if_pos (show min (min 256 res.length) res.length + 2 ≤ N by omega)]
  by_cases h255 : 255 < res.length - min 256 res.length
  · simp only [if_pos h255]
    rw [if_neg (by decide : ¬ (0x6100 : Nat) = 0x9000)]
    rw [if_pos (show res.length - min 256 res.length ≤ R by omega)]
    rw [if_neg (show ¬ res.length - min 256 res.length = 0 by omega)]
    simp only [respondCur, respondOn, getChan_update_buffer, hch]
  · simp only [if_neg h255]
    by_cases h0 : 0 < res.length - min 256 res.length
    · simp only [if_pos h0]
      rw [if_neg (show ¬ (0x6100 + (res.length - min 256 res.length) : Nat) = 0x9000 by omega)]
      rw [if_pos (show res.length - min 256 res.length ≤ R by omega)]
      rw [if_neg (show ¬ res.length - min 256 res.length = 0 by omega)]
      simp only [respondCur, respondOn, getChan_update_buffer, hch]
    · simp only [if_neg h0]
      rw [if_pos trivial]
      rw [if_pos (show res.length - min 256 res.length = 0 by omega)]
      simp only [respondCur, respondOn, getChan_update_buffer, hch]

/-- C1: a chain-mode drain step on a pending response of length `L`
emits `min(256, L)` data bytes followed by a status word that is
`0x6100` when more than 255 bytes remain after the chunk,
`0x6100 + remaining` when 1 to 255 bytes remain, and `0x9000` when
none remain; on `0x9000` the buffer is cleared, otherwise it keeps
exactly the remaining bytes as a response for the next GET RESPONSE.
The capacity hypotheses reflect the deployed constants (`N = 3072`,
response length at most `R`). -/
theorem handle_reply_chain_drain (N R : Nat) (s : DispatchState) (res : List Nat)
    (hbuf : s.buffer = .response res)
    (hmode : s.was_request_chained = true ∨ N < res.length)
    (hN : 258 ≤ N) (hR : res.length ≤ R)
    (hch : getChan s s.current_interface = .processing) :
    handle_reply N R s =
      .ok (setChan
        { s with buffer :=
            if res.length - min 256 res.length = 0 then RawApduBuffer.none
            else RawApduBuffer.response (res.drop (min 256 res.length)) }
        s.current_interface
        (.responded (res.take (min 256 res.length) ++
          statusToBytes
            (if 255 < res.length - min 256 res.length then 0x6100
             else if 0 < res.length - min 256 res.length then
               0x6100 + (res.length - min 256 res.length)
             else 0x9000)))) :=
  handle_reply_chain_drain_core N R s res hbuf hmode hN hR hch

/-- Witness for C1: a chained request forces chain-mode drain of a
three-byte response — the whole payload goes out with `0x9000` and the
buffer is cleared. -/
theorem handle_reply_chain_drain_witness :
    handle_reply 258 10
      { current_aid := some [1, 2, 3, 4, 5]
        current_interface := .contact
        buffer := .response [1, 2, 3]
        was_request_chained := true
        contact := .processing
        contactless := .idle } =
      .ok { current_aid := some [1, 2, 3, 4, 5]
            current_interface := .contact
            buffer := .none
            was_request_chained := true
            contact := .responded [1, 2, 3, 0x90, 0x00]
            contactless := .idle } := by
  have h := handle_reply_chain_drain 258 10
    { current_aid := some [1, 2, 3, 4, 5]
      current_interface := .contact
      buffer := .response [1, 2, 3]
      was_request_chained := true
      contact := .processing
      contactless := .idle } [1, 2, 3] rfl
    (Or.inl rfl) (by omega) (by simp) rfl
  exact h.trans (by rfl)

/-- States for the C3 boundary evaluation: an unchained response of
length `N - 1` (respectively `N`) pending on a transport with capacity
`N = 256`. -/
def c3stateA : DispatchState :=
  { current_aid := some [1, 2, 3, 4, 5]
    current_interface := .contact
    buffer := .response (List.replicate 255 0x11)
    was_request_chained := false
    contact := .processing
    contactless := .idle }

/-- Companion state for C3 with a response of length exactly `N`. -/
def c3stateB : DispatchState :=
  { c3stateA with buffer := .response (List.replicate 256 0x11) }

/-- Companion state for C3 with equal transport and response
capacities (as in the deployed constants, scaled down to
`N = R = 300`): an unchained response of length `N - 1`. -/
def c3stateC : DispatchState :=
  { c3stateA with buffer := .response (List.replicate 299 0x11) }

set_option maxRecDepth 40000 in
/-- C3 evaluation: with transport capacity `N = 256` and an unchained
pending response of length `N - 1 = 255` (or `N = 256`), the drain
does not enter chain mode — the code compares `L > N` instead of the
spec's `L + 2 > N` — and the single-shot path then panics because the
payload plus status word no longer fits a transport message. -/
theorem handle_reply_boundary_panics :
    handle_reply 256 3072 c3stateA = .error .dataUnwrap
    ∧ handle_reply 256 3072 c3stateB = .error .dataUnwrap
    ∧ handle_reply 300 300 c3stateC =
        .ok { c3stateA with
                buffer := .none,
                contact := .responded (List.replicate 299 0x11) } := by
  exact ⟨rfl, rfl, rfl⟩

/-- The AID used in the C4 drain scenario. -/
def c4aid : List Nat := [0xA0, 0x00, 0x00, 0x06, 0x47]

/-- The application of the C4 scenario: every call returns a 600-byte
response. -/
def c4app : AppSpec :=
  { aid := c4aid
    select := fun _ => .ok []
    call := fun _ _ => .ok (List.replicate 600 0xAB) }

/-- C4 start state: the application is selected and an ordinary
four-byte command awaits on the contact channel. -/
def c4s0 : DispatchState :=
  { current_aid := some c4aid
    current_interface := .contact
    buffer := .none
    was_request_chained := false
    contact := .requested [0x00, 0x01, 0x00, 0x00]
    contactless := .idle }

/-- C4 state after the first poll: 344 bytes remain buffered and the
emitted message is 256 data bytes with no status word (the status-word
append did not fit the 256-byte transport message and was silently
dropped). -/
def c4s1 : DispatchState :=
  { current_aid := some c4aid
    current_interface := .contact
    buffer := .response (List.replicate 344 0xAB)
    was_request_chained := false
    contact := .responded (List.replicate 256 0xAB)
    contactless := .idle }

/-- C4: the first GET RESPONSE arrives. -/
def c4s1p : DispatchState :=
  { c4s1 with contact := .requested [0x00, 0xC0, 0x00, 0x00, 0x00] }

/-- C4 state after the second poll: 88 bytes remain and again 256 data
bytes went out without a status word. -/
def c4s2 : DispatchState :=
  { c4s1 with
      buffer := .response (List.replicate 88 0xAB),
      contact := .responded (List.replicate 256 0xAB) }

/-- C4: the second GET RESPONSE arrives. -/
def c4s2p : DispatchState :=
  { c4s2 with contact := .requested [0x00, 0xC0, 0x00, 0x00, 0x00] }

/-- C4 final state: the last 88 data bytes went out followed by
`90 00`, and the buffer is cleared. -/
def c4s3 : DispatchState :=
  { c4s2 with
      buffer := .none,
      contact := .responded (List.replicate 88 0xAB ++ [0x90, 0x00]) }

set_option maxRecDepth 100000 in
/-- C4 evaluation: a selected application returns 600 bytes on a
transport with capacity 256 and an unchained request.  The code emits
256 data bytes with the status word silently dropped (not 254 bytes
plus `61 00`), then again 256 bytes with no status word (not 256 plus
`61 5A`), then the final 88 bytes plus `90 00` (not 90 plus `90 00`). -/
theorem poll_big_response_chunks :
    poll 7609 256 3072 parseAPDU c4s0 [c4app] =
      .ok (c4s1, [AppEvent.call 0 .contact
        { cla := 0, ins := 1, p1 := 0, p2 := 0, data := [], le := 0 }], some .contact)
    ∧ poll 7609 256 3072 parseAPDU c4s1p [c4app] = .ok (c4s2, [], some .contact)
    ∧ poll 7609 256 3072 parseAPDU c4s2p [c4app] = .ok (c4s3, [], some .contact) := by
  exact ⟨rfl, rfl, rfl⟩

theorem setChan_buffer_comm (s : DispatchState) (i : Interface) (c : ChanState)
    (b : RawApduBuffer) :
    { setChan s i c with buffer := b } = setChan { s with buffer := b } i c := by
  cases i <;> rfl

theorem getChan_update_aid (s : DispatchState) (a : Option (List Nat)) (i : Interface) :
    getChan { s with current_aid := a } i = getChan s i := by
  cases i <;> rfl

/-- Classification of a last-block SELECT arriving while the buffer is
not accumulating a request: the command is buffered, the chained flag
is cleared exactly when the buffer was empty, and the interface is
recorded. -/
theorem bcain_select (C : Nat) (s : DispatchState) (cmd : Command) (iface : Interface)
    (aid : List Nat)
    (hchain : cmd.chainNotLast = false)
    (hbuf : s.buffer.isRequest = false)
    (htype : apdu_type cmd = .ok (.select aid)) :
    buffer_chained_apdu_if_needed C s cmd iface =
      .ok (.select aid,
        { s with
            current_interface := iface,
            was_request_chained :=
              if s.buffer.isNone then false else s.was_request_chained,
            buffer := buffer_request C s.buffer cmd }) := by
  unfold buffer_chained_apdu_if_needed
  simp only [hchain, if_pos rfl, hbuf, Bool.false_eq_true, if_false, htype]
  by_cases hN : s.buffer.isNone
  · simp [hN]
  · simp [hN]

/-- `handle_app_select` when the requested AID matches no application:
the dispatcher responds `0x6A82` and clears the buffer; an application
selected under a different AID is deselected first, so `current_aid`
survives only when it already equals the requested AID. -/
theorem getChan_setChan_ne (s : DispatchState) (i j : Interface) (c : ChanState)
    (h : i ≠ j) : getChan (setChan s j c) i = getChan s i := by
  cases i <;> cases j <;> first
    | rfl
    | exact absurd rfl h

theorem getChan_update_aid_buffer (s : DispatchState) (a : Option (List Nat))
    (b : RawApduBuffer) (i : Interface) :
    getChan { s with current_aid := a, buffer := b } i = getChan s i := by
  cases i <;> rfl

theorem handle_app_select_not_found (N R : Nat) (s : DispatchState) (apps : List AppSpec)
    (aid : List Nat)
    (hfind : find_app (some aid) apps = Option.none)
    (hch : getChan s s.current_interface = .processing)
    (hdesel : ∀ c, s.current_aid = some c → c ≠ aid →
        (find_app (some c) apps).isSome = true) :
    ∃ evs s2, handle_app_select N R s apps aid = .ok (s2, evs)
      ∧ s2.current_aid
          = (if s.current_aid = some aid then s.current_aid else Option.none)
      ∧ s2.buffer = RawApduBuffer.none
      ∧ getChan s2 s.current_interface = .responded (statusToBytes 0x6A82)
      ∧ ∀ i, i ≠ s.current_interface → getChan s2 i = getChan s i := by
  rcases hca : s.current_aid with _ | c
  · refine ⟨[], setChan
        { s with current_aid := Option.none, buffer := RawApduBuffer.none }
        s.current_interface (.responded (statusToBytes 0x6A82)), ?_, ?_, ?_, ?_, ?_⟩
    · simp only [handle_app_select, hca, hfind, reply_error, respondCur, respondOn, hch]
      rw [setChan_buffer_comm]
      simp [hca]
    · rw [aid_setChan]; simp [hca]
    · rw [buffer_setChan]
    · rw [getChan_setChan]
    · intro i hi
      rw [getChan_setChan_ne _ _ _ _ hi, getChan_update_aid_buffer]
  · by_cases heq : c = aid
    · subst heq
      refine ⟨[], setChan
          { s with current_aid := some c, buffer := RawApduBuffer.none }
          s.current_interface (.responded (statusToBytes 0x6A82)), ?_, ?_, ?_, ?_, ?_⟩
      · simp only [handle_app_select, hca, eq_self_iff_true, if_true, hfind, reply_error,
          respondCur, respondOn, hch]
        rw [setChan_buffer_comm]
        simp [hca]
      · rw [aid_setChan]; simp [hca]
      · rw [buffer_setChan]
      · rw [getChan_setChan]
      · intro i hi
        rw [getChan_setChan_ne _ _ _ _ hi, getChan_update_aid_buffer]
    · obtain ⟨p, hp⟩ := Option.isSome_iff_exists.mp (hdesel c hca heq)
      obtain ⟨i, a⟩ := p
      refine ⟨[AppEvent.deselect i], setChan
          { s with current_aid := Option.none, buffer := RawApduBuffer.none }
          s.current_interface (.responded (statusToBytes 0x6A82)), ?_, ?_, ?_, ?_, ?_⟩
      · simp only [handle_app_select, hca, if_neg heq, hp, hfind, reply_error, respondCur,
          respondOn, getChan_update_aid, hch]
        rw [setChan_buffer_comm]
      · rw [aid_setChan]; simp [hca, heq]
      · rw [buffer_setChan]
      · rw [getChan_setChan]
      · intro j hj
        rw [getChan_setChan_ne _ _ _ _ hj, getChan_update_aid_buffer]

theorem getChan_update_misc (s : DispatchState) (i2 : Interface) (f : Bool)
    (b : RawApduBuffer) (i : Interface) :
    getChan { s with current_interface := i2, was_request_chained := f, buffer := b } i
      = getChan s i := by
  cases i <;> rfl

/-- C2 (amended): a SELECT by DF name whose AID matches no application
draws the reply `0x6A82` and clears the buffer; `current_aid` is
unchanged when nothing was selected or when the stale selection equals
the requested AID, but a differently-selected application is
deselected first, leaving `current_aid` empty. -/
theorem poll_unknown_aid (C N R : Nat) (P : List Nat → Except FromSliceError Command)
    (s : DispatchState) (apps : List AppSpec) (msg : List Nat) (iface : Interface)
    (cmd : Command)
    (hbusy : busy s = false)
    (harr : arrives s msg iface)
    (hP : P msg = .ok cmd)
    (hchain : cmd.chainNotLast = false)
    (hbuf : s.buffer.isRequest = false)
    (hins : cmd.ins = 0xA4) (hp1 : cmd.p1 &&& 0x04 ≠ 0)
    (hlen5 : 5 ≤ cmd.data.length) (hlen16 : cmd.data.length ≤ 16)
    (hfind : find_app (some cmd.data) apps = Option.none)
    (hdesel : ∀ c, s.current_aid = some c → c ≠ cmd.data →
        (find_app (some c) apps).isSome = true) :
    ∃ s' evs, poll C N R P s apps = .ok (s', evs, some iface)
      ∧ s'.current_aid
          = (if s.current_aid = some cmd.data then s.current_aid else Option.none)
      ∧ s'.buffer = RawApduBuffer.none
      ∧ getChan s' iface = .responded (statusToBytes 0x6A82) := by
  have htype : apdu_type cmd = .ok (.select cmd.data) := by
    unfold apdu_type Aid.try_from_slice
    rw [if_pos ⟨hins, hp1⟩, if_pos ⟨hlen5, hlen16⟩]
  have hc := check_for_request_arrives C P s msg iface hbusy harr
  simp only [parse_apdu, hP] at hc
  have hb := bcain_select C (setChan s iface .processing) cmd iface cmd.data hchain
      (by rw [buffer_setChan]; exact hbuf) htype
  rw [hb] at hc
  have haid3 : ({ setChan s iface .processing with
      current_interface := iface,
      was_request_chained :=
        if (setChan s iface .processing).buffer.isNone then false
        else (setChan s iface .processing).was_request_chained,
      buffer := buffer_request C (setChan s iface .processing).buffer cmd } :
        DispatchState).current_aid = s.current_aid := by
    simp [aid_setChan]
  obtain ⟨evs, s2, hsel, haid2, hbuf2, hresp2, hother2⟩ := handle_app_select_not_found N R
    { setChan s iface .processing with
      current_interface := iface,
      was_request_chained :=
        if (setChan s iface .processing).buffer.isNone then false
        else (setChan s iface .processing).was_request_chained,
      buffer := buffer_request C (setChan s iface .processing).buffer cmd }
    apps cmd.data hfind
    (by simp only [getChan_update_misc]; rw [getChan_setChan])
    (by intro c hc1 hc2
        rw [haid3] at hc1
        exact hdesel c hc1 hc2)
  rw [haid3] at haid2
  refine ⟨s2, evs, ?_, haid2, hbuf2, ?_⟩
  · simp only [poll, hc, hsel]
    have hresp2' : getChan s2 iface = .responded (statusToBytes 0x6A82) := hresp2
    cases iface with
    | contactless =>
        have : s2.contactless = .responded (statusToBytes 0x6A82) := hresp2'
        simp [ChanState.isResponded, this]
    | contact =>
        obtain ⟨h1, h2⟩ := harr
        have hco : s2.contact = .responded (statusToBytes 0x6A82) := hresp2'
        cases hcl : s.contactless with
        | idle =>
            have hcl2 : s2.contactless = s.contactless :=
              hother2 .contactless (by intro hx; exact Interface.noConfusion hx)
            simp [ChanState.isResponded, hco, hcl2, hcl]
        | requested m => simp [ChanState.isRequested, hcl] at h1
        | processing => simp [busy, hcl] at hbusy
        | responded m => simp [busy, hcl] at hbusy
  · exact hresp2

/-- Witness for the amended C2: from a cold dispatcher, SELECT of the
unknown AID `FF FF FF FF FF` yields `6A 82` with nothing selected. -/
theorem poll_unknown_aid_witness :
    ∃ s' evs, poll 7609 3072 3072 parseAPDU
        { DispatchState.initial with
            contact := .requested [0x00, 0xA4, 0x04, 0x00, 0x05, 0xFF, 0xFF, 0xFF, 0xFF, 0xFF] }
        [] = .ok (s', evs, some .contact)
      ∧ s'.current_aid = Option.none
      ∧ s'.buffer = RawApduBuffer.none
      ∧ getChan s' .contact = .responded (statusToBytes 0x6A82) := by
  obtain ⟨s', evs, h1, h2, h3, h4⟩ := poll_unknown_aid 7609 3072 3072 parseAPDU
    { DispatchState.initial with
        contact := .requested [0x00, 0xA4, 0x04, 0x00, 0x05, 0xFF, 0xFF, 0xFF, 0xFF, 0xFF] }
    [] [0x00, 0xA4, 0x04, 0x00, 0x05, 0xFF, 0xFF, 0xFF, 0xFF, 0xFF] .contact
    { cla := 0, ins := 0xA4, p1 := 0x04, p2 := 0,
      data := [0xFF, 0xFF, 0xFF, 0xFF, 0xFF], le := 0 }
    rfl ⟨rfl, rfl⟩ rfl rfl rfl rfl (by decide) (by decide) (by decide) rfl
    (by intro c h1 h2; simp [DispatchState.initial] at h1)
  exact ⟨s', evs, h1, h2.trans (by rfl), h3, h4⟩

/-- The AID of the application selected before the C2 counterexample
scenario. -/
def c2aid : List Nat := [0xA0, 0x00, 0x00, 0x06, 0x47]

/-- The application selected before the C2 counterexample scenario. -/
def c2app : AppSpec :=
  { aid := c2aid
    select := fun _ => .ok []
    call := fun _ _ => .ok [] }

/-- C2 counterexample start state: `c2app` is selected and a SELECT of
the unknown AID `FF FF FF FF FF` awaits on the contact channel. -/
def c2s0 : DispatchState :=
  { current_aid := some c2aid
    current_interface := .contact
    buffer := .none
    was_request_chained := false
    contact := .requested [0x00, 0xA4, 0x04, 0x00, 0x05, 0xFF, 0xFF, 0xFF, 0xFF, 0xFF]
    contactless := .idle }

/-- C2 counterexample end state: the reply is `6A 82` but the
previously selected application has been deselected. -/
def c2s1 : DispatchState :=
  { current_aid := Option.none
    current_interface := .contact
    buffer := .none
    was_request_chained := false
    contact := .responded [0x6A, 0x82]
    contactless := .idle }

/-- C2 counterexample: with an application selected, a SELECT of an
unknown AID answers `6A 82` but `current_aid` does not remain
unchanged — the old application is deselected and the selection is
cleared. -/
theorem poll_unknown_aid_counterexample :
    poll 7609 3072 3072 parseAPDU c2s0 [c2app] =
        .ok (c2s1, [AppEvent.deselect 0], some .contact)
      ∧ c2s0.current_aid = some c2aid
      ∧ c2s1.current_aid = Option.none := by
  exact ⟨rfl, rfl, rfl⟩

theorem respondOn_ok_flag (s : DispatchState) (i : Interface) (m : List Nat)
    (s' : DispatchState) (h : respondOn s i m = .ok s') :
    s'.was_request_chained = s.was_request_chained := by
  unfold respondOn at h
  split at h
  · cases h
    exact flag_setChan s i _
  · cases h

/-- C7 (amended): one intake step sets `was_request_chained` to true
exactly when a chain-final block arrives while the buffer holds a
request; it clears the flag exactly when a non-chained command arrives
while the buffer is empty — also when that command is a GET RESPONSE
and no request begins; in every other case (chained blocks, or
a non-chained command over a stale response) the flag is unchanged. -/
theorem bcain_flag_characterization (C : Nat) (s : DispatchState) (cmd : Command)
    (iface : Interface) (rt : RequestType) (s' : DispatchState)
    (h : buffer_chained_apdu_if_needed C s cmd iface = .ok (rt, s')) :
    s'.was_request_chained =
      (if cmd.chainNotLast = true then s.was_request_chained
       else if s.buffer.isRequest = true then true
       else if s.buffer.isNone = true then false
       else s.was_request_chained) := by
  simp only [buffer_chained_apdu_if_needed] at h
  by_cases hch : cmd.chainNotLast
  · rw [if_neg (by simp [hch])] at h
    rw [if_pos hch]
    cases hr : respondOn { s with current_interface := iface } iface (statusToBytes 0x9000) with
    | error e => rw [hr] at h; cases h
    | ok s2 =>
        rw [hr] at h
        simp only [Except.ok.injEq, Prod.mk.injEq] at h
        obtain ⟨h1, h2⟩ := h
        subst h2
        have hfl := respondOn_ok_flag { s with current_interface := iface } iface
          (statusToBytes 0x9000) s2 hr
        simpa using hfl
  · have hch' : cmd.chainNotLast = false := by
      cases hcb : cmd.chainNotLast
      · rfl
      · exact absurd hcb hch
    rw [if_pos hch'] at h
    rw [if_neg (by simp [hch'])]
    by_cases hbr : s.buffer.isRequest
    · simp only [hbr, if_true, Except.ok.injEq, Prod.mk.injEq, if_pos hbr] at h ⊢
      obtain ⟨h1, h2⟩ := h
      subst h2
      rfl
    · have hbr' : s.buffer.isRequest = false := by
        cases hb : s.buffer.isRequest
        · rfl
        · exact absurd hb hbr
      simp only [hbr', Bool.false_eq_true, if_false] at h ⊢
      cases ht : apdu_type cmd with
      | error e => rw [ht] at h; cases h
      | ok t =>
          rw [ht] at h
          by_cases hbn : s.buffer.isNone
          · simp only [hbn, if_true] at h ⊢
            cases t <;>
              (simp only [Except.ok.injEq, Prod.mk.injEq] at h
               obtain ⟨h1, h2⟩ := h
               subst h2
               rfl)
          · have hbn' : s.buffer.isNone = false := by
              cases hb : s.buffer.isNone
              · rfl
              · exact absurd hb hbn
            simp only [hbn', Bool.false_eq_true, if_false] at h ⊢
            cases t <;>
              (simp only [Except.ok.injEq, Prod.mk.injEq] at h
               obtain ⟨h1, h2⟩ := h
               subst h2
               rfl)

/-- Witness for the amended C7: a GET RESPONSE arriving over an empty
buffer with the chained flag set clears the flag without any request
beginning. -/
theorem bcain_flag_characterization_witness :
    buffer_chained_apdu_if_needed 7609
        { DispatchState.initial with was_request_chained := true }
        { cla := 0, ins := 0xC0, p1 := 0, p2 := 0, data := [], le := 256 } .contact
      = .ok (.getResponse, DispatchState.initial)
    ∧ DispatchState.initial.was_request_chained = false := by
  constructor
  · rfl
  · exact (bcain_flag_characterization 7609
      { DispatchState.initial with was_request_chained := true }
      { cla := 0, ins := 0xC0, p1 := 0, p2 := 0, data := [], le := 256 } .contact
      .getResponse DispatchState.initial rfl).trans (by rfl)

/-- C7 counterexample, first part of the trace: a two-block chained
command is assembled and rejected (`6A 82`, nothing selected), which
leaves `was_request_chained = true` with an empty buffer. -/
def c7firstSteps : List Step :=
  [ Step.post .contact [0x10, 0x01, 0x00, 0x00, 0x01, 0xAA]
  , Step.poll []
  , Step.collect .contact
  , Step.post .contact [0x00, 0x01, 0x00, 0x00, 0x01, 0xBB]
  , Step.poll []
  , Step.collect .contact ]

/-- C7 counterexample, rest of the trace: a spurious GET RESPONSE. -/
def c7tail : List Step :=
  [ Step.post .contact [0x00, 0xC0, 0x00, 0x00, 0x00]
  , Step.poll [] ]

/-- C7 counterexample, state after the prefix. -/
def c7s6 : DispatchState :=
  { current_aid := Option.none
    current_interface := .contact
    buffer := .none
    was_request_chained := true
    contact := .idle
    contactless := .idle }

/-- C7 counterexample, state after the full trace. -/
def c7s8 : DispatchState :=
  { current_aid := Option.none
    current_interface := .contact
    buffer := .none
    was_request_chained := false
    contact := .responded [0x6F, 0x00]
    contactless := .idle }

/-- C7 counterexample: in a run from the initial state, a poll that
takes a spurious GET RESPONSE over an empty buffer clears
`was_request_chained` (true before, false after) although the buffer
is `Empty` before and after the poll and no request begins — the
clearing is not tied to an `Empty` to `Request` transition. -/
theorem runFromInit_flag_cleared_without_request :
    runFromInit 7609 3072 3072 parseAPDU c7firstSteps = .ok c7s6
    ∧ c7s6.was_request_chained = true
    ∧ c7s6.buffer = RawApduBuffer.none
    ∧ runFromInit 7609 3072 3072 parseAPDU (c7firstSteps ++ c7tail) = .ok c7s8
    ∧ c7s8.was_request_chained = false
    ∧ c7s8.buffer = RawApduBuffer.none := by
  exact ⟨rfl, rfl, rfl, rfl, rfl, rfl⟩

theorem bcain_final_chained (C : Nat) (s : DispatchState) (cmd : Command)
    (iface : Interface)
    (hchain : cmd.chainNotLast = false) (hbr : s.buffer.isRequest = true) :
    buffer_chained_apdu_if_needed C s cmd iface =
      .ok (.newCommand,
        { s with
            current_interface := iface,
            buffer := buffer_request C s.buffer cmd,
            was_request_chained := true }) := by
  simp [buffer_chained_apdu_if_needed, hchain, hbr]

theorem bcain_chained_block (C : Nat) (s : DispatchState) (cmd : Command)
    (iface : Interface)
    (hchain : cmd.chainNotLast = true)
    (hch : getChan s iface = .processing) :
    buffer_chained_apdu_if_needed C s cmd iface =
      .ok (RequestType.none,
        { setChan s iface (.responded (statusToBytes 0x9000)) with
            current_interface := iface,
            buffer := buffer_request C s.buffer cmd }) := by
  have hch2 : getChan { s with current_interface := iface } iface = .processing := by
    cases iface <;> exact hch
  simp only [buffer_chained_apdu_if_needed, hchain, Bool.true_eq_false, if_false,
    respondOn, hch2]
  cases iface <;> rfl

theorem buffer_request_requestData (C : Nat) (buf : RawApduBuffer) (cmd : Command)
    (hfit : (buf.pendingData).length + cmd.data.length ≤ C) :
    (buffer_request C buf cmd).requestData
      = some (buf.pendingData ++ cmd.data) := by
  cases buf with
  | request b =>
      simp only [buffer_request, RawApduBuffer.pendingData, Command.extend_from_command,
        RawApduBuffer.requestData] at hfit ⊢
      rw [if_pos hfit]
  | none =>
      have hle : cmd.data.length ≤ C := by
        simpa [RawApduBuffer.pendingData] using hfit
      simp [buffer_request, RawApduBuffer.pendingData, Command.extend_from_command,
        Command.empty, RawApduBuffer.requestData, hle]
  | response d =>
      have hle : cmd.data.length ≤ C := by
        simpa [RawApduBuffer.pendingData] using hfit
      simp [buffer_request, RawApduBuffer.pendingData, Command.extend_from_command,
        Command.empty, RawApduBuffer.requestData, hle]

/-- C5, first half: a block whose chaining bit is set is acknowledged
immediately with `0x9000` on its originating channel, its data is
appended to the buffered request (one is started over an empty buffer
or stale response), no application method runs, and the selection and
chained flag are untouched. -/
theorem poll_chained_block (C N R : Nat) (P : List Nat → Except FromSliceError Command)
    (s : DispatchState) (apps : List AppSpec) (msg : List Nat) (iface : Interface)
    (cmd : Command)
    (hbusy : busy s = false)
    (harr : arrives s msg iface)
    (hP : P msg = .ok cmd)
    (hchain : cmd.chainNotLast = true)
    (hfit : (s.buffer.pendingData).length + cmd.data.length ≤ C) :
    ∃ s', poll C N R P s apps = .ok (s', [], some iface)
      ∧ getChan s' iface = .responded (statusToBytes 0x9000)
      ∧ s'.buffer.requestData = some (s.buffer.pendingData ++ cmd.data)
      ∧ s'.was_request_chained = s.was_request_chained
      ∧ s'.current_aid = s.current_aid := by
  have hc := check_for_request_arrives C P s msg iface hbusy harr
  simp only [parse_apdu, hP] at hc
  rw [bcain_chained_block C (setChan s iface .processing) cmd iface hchain
    (getChan_setChan s iface .processing)] at hc
  rw [setChan_setChan] at hc
  refine ⟨{ setChan s iface (.responded (statusToBytes 0x9000)) with
      current_interface := iface,
      buffer := buffer_request C (setChan s iface ChanState.processing).buffer cmd },
    ?_, ?_, ?_, ?_, ?_⟩
  · simp only [poll, hc]
    cases iface with
    | contactless => simp [setChan, ChanState.isResponded]
    | contact =>
        obtain ⟨h1, h2⟩ := harr
        cases hcl : s.contactless with
        | idle => simp [setChan, ChanState.isResponded, hcl]
        | requested m => simp [ChanState.isRequested, hcl] at h1
        | processing => simp [busy, hcl] at hbusy
        | responded m => simp [busy, hcl] at hbusy
  · cases iface <;> simp [setChan, getChan]
  · show (buffer_request C (setChan s iface ChanState.processing).buffer cmd).requestData = _
    rw [buffer_setChan]
    exact buffer_request_requestData C s.buffer cmd hfit
  · cases iface <;> simp [setChan]
  · cases iface <;> simp [setChan]

theorem handle_app_command_call_ok (N R : Nat) (s3 : DispatchState) (apps : List AppSpec)
    (b2 : Command) (i : Nat) (app : AppSpec) (a out : List Nat)
    (haid : s3.current_aid = some a)
    (hbuf : s3.buffer = .request b2)
    (hfind : find_app (some a) apps = some (i, app))
    (hcall : app.call s3.current_interface b2 = .ok out)
    (hflag : s3.was_request_chained = true)
    (hch : getChan s3 s3.current_interface = .processing)
    (hN : 258 ≤ N) (hout : out.length ≤ R) :
    ∃ s', handle_app_command N R s3 apps
      = .ok (s', [AppEvent.call i s3.current_interface b2]) := by
  simp only [handle_app_command, haid, hfind, hbuf, hcall, handle_app_response]
  have hdrain := handle_reply_chain_drain_core N R
    { s3 with current_aid := some a, buffer := .response out } out rfl
    (Or.inl (by simpa using hflag)) hN hout
    (by simpa [getChan_update_aid_buffer] using hch)
  rw [hdrain]
  exact ⟨_, rfl⟩

/-- C5, second half: when the final block of a chain (chaining bit
clear) arrives while the buffer is accumulating a request, the
selected application receives exactly one `call` whose command is the
assembled request, and the assembled request's data is the
concatenation of the buffered blocks' data with the final block's. -/
theorem poll_chain_final_call (C N R : Nat) (P : List Nat → Except FromSliceError Command)
    (s : DispatchState) (apps : List AppSpec) (msg : List Nat) (iface : Interface)
    (cmd b : Command) (i : Nat) (app : AppSpec) (a out : List Nat)
    (hbusy : busy s = false)
    (harr : arrives s msg iface)
    (hP : P msg = .ok cmd)
    (hchain : cmd.chainNotLast = false)
    (hbuf : s.buffer = .request b)
    (hfit : b.data.length + cmd.data.length ≤ C)
    (haid : s.current_aid = some a)
    (hfind : find_app (some a) apps = some (i, app))
    (hcall : app.call iface (Command.extend_from_command C b cmd) = .ok out)
    (hN : 258 ≤ N) (hout : out.length ≤ R) :
    ∃ s' ret, poll C N R P s apps =
        .ok (s', [AppEvent.call i iface (Command.extend_from_command C b cmd)], ret)
      ∧ (Command.extend_from_command C b cmd).data = b.data ++ cmd.data := by
  have hc := check_for_request_arrives C P s msg iface hbusy harr
  simp only [parse_apdu, hP] at hc
  rw [bcain_final_chained C (setChan s iface .processing) cmd iface hchain
    (by rw [buffer_setChan, hbuf]; rfl)] at hc
  rw [buffer_setChan, hbuf] at hc
  obtain ⟨s', hcmd⟩ := handle_app_command_call_ok N R
    { setChan s iface ChanState.processing with
        current_interface := iface,
        buffer := buffer_request C (RawApduBuffer.request b) cmd,
        was_request_chained := true }
    apps (Command.extend_from_command C b cmd) i app a out
    (by simpa [aid_setChan] using haid)
    rfl hfind hcall rfl
    (by cases iface <;> rfl)
    hN hout
  refine ⟨s',
    (if s'.contactless.isResponded then some Interface.contactless
     else if s'.contact.isResponded then some Interface.contact else Option.none),
    ?_, ?_⟩
  · simp only [poll, hc, hcmd]
  · simp only [Command.extend_from_command, if_pos hfit]

/-- C5: a block with the chaining bit set is acknowledged with
`0x9000` on the originating channel, buffered (a new request starts if
the buffer held none), and no application method runs that poll; when
the final block (chaining bit clear) arrives on a buffer holding a
request, the selected application receives a single `call` whose data
is the concatenation of all blocks' data. -/
theorem poll_request_chaining :
    (∀ (C N R : Nat) (P : List Nat → Except FromSliceError Command) (s : DispatchState)
        (apps : List AppSpec) (msg : List Nat) (iface : Interface) (cmd : Command),
      busy s = false → arrives s msg iface → P msg = .ok cmd →
      cmd.chainNotLast = true →
      (s.buffer.pendingData).length + cmd.data.length ≤ C →
      ∃ s', poll C N R P s apps = .ok (s', [], some iface)
        ∧ getChan s' iface = .responded (statusToBytes 0x9000)
        ∧ s'.buffer.requestData = some (s.buffer.pendingData ++ cmd.data)
        ∧ s'.was_request_chained = s.was_request_chained
        ∧ s'.current_aid = s.current_aid)
    ∧ (∀ (C N R : Nat) (P : List Nat → Except FromSliceError Command) (s : DispatchState)
        (apps : List AppSpec) (msg : List Nat) (iface : Interface) (cmd b : Command)
        (i : Nat) (app : AppSpec) (a out : List Nat),
      busy s = false → arrives s msg iface → P msg = .ok cmd →
      cmd.chainNotLast = false → s.buffer = .request b →
      b.data.length + cmd.data.length ≤ C → s.current_aid = some a →
      find_app (some a) apps = some (i, app) →
      app.call iface (Command.extend_from_command C b cmd) = .ok out →
      258 ≤ N → out.length ≤ R →
      ∃ s' ret, poll C N R P s apps =
          .ok (s', [AppEvent.call i iface (Command.extend_from_command C b cmd)], ret)
        ∧ (Command.extend_from_command C b cmd).data = b.data ++ cmd.data) :=
  ⟨fun C N R P s apps msg iface cmd h1 h2 h3 h4 h5 =>
      poll_chained_block C N R P s apps msg iface cmd h1 h2 h3 h4 h5,
   fun C N R P s apps msg iface cmd b i app a out h1 h2 h3 h4 h5 h6 h7 h8 h9 h10 h11 =>
      poll_chain_final_call C N R P s apps msg iface cmd b i app a out
        h1 h2 h3 h4 h5 h6 h7 h8 h9 h10 h11⟩

/-- The AID and application of the C5 witness scenario. -/
def w5aid : List Nat := [1, 2, 3, 4, 5]

/-- The selected application of the C5 witness scenario. -/
def w5app : AppSpec :=
  { aid := w5aid
    select := fun _ => .ok []
    call := fun _ _ => .ok [] }

/-- C5 witness start state: first chained block waiting on contact. -/
def w5s0 : DispatchState :=
  { current_aid := some w5aid
    current_interface := .contact
    buffer := .none
    was_request_chained := false
    contact := .requested [0x10, 0x01, 0x00, 0x00, 0x04, 0xAA, 0xBB, 0xCC, 0xDD]
    contactless := .idle }

/-- The request buffered after the first block of the C5 witness. -/
def w5b1 : Command :=
  { cla := 0x10, ins := 0x01, p1 := 0, p2 := 0,
    data := [0xAA, 0xBB, 0xCC, 0xDD], le := 0 }

/-- C5 witness state before the final block arrives. -/
def w5s1 : DispatchState :=
  { current_aid := some w5aid
    current_interface := .contact
    buffer := .request w5b1
    was_request_chained := false
    contact := .requested [0x00, 0x01, 0x00, 0x00, 0x04, 0xEE, 0xFF, 0x00, 0x11]
    contactless := .idle }

/-- Witness for C5: scenario 4 of the spec — `10 01 00 00 04 AA BB CC
DD` is acknowledged with `90 00` and buffered with no app call, and
the final block `00 01 00 00 04 EE FF 00 11` produces a single call
with data `AA BB CC DD EE FF 00 11`. -/
theorem poll_request_chaining_witness :
    (∃ s', poll 7609 3072 3072 parseAPDU w5s0 [w5app] = .ok (s', [], some .contact)
        ∧ getChan s' .contact = .responded (statusToBytes 0x9000)
        ∧ s'.buffer.requestData
            = some (w5s0.buffer.pendingData ++ [0xAA, 0xBB, 0xCC, 0xDD])
        ∧ s'.was_request_chained = w5s0.was_request_chained
        ∧ s'.current_aid = w5s0.current_aid)
    ∧ (∃ s' ret, poll 7609 3072 3072 parseAPDU w5s1 [w5app] =
          .ok (s', [AppEvent.call 0 .contact
            (Command.extend_from_command 7609 w5b1
              { cla := 0, ins := 0x01, p1 := 0, p2 := 0,
                data := [0xEE, 0xFF, 0x00, 0x11], le := 0 })], ret)
        ∧ (Command.extend_from_command 7609 w5b1
            { cla := 0, ins := 0x01, p1 := 0, p2 := 0,
              data := [0xEE, 0xFF, 0x00, 0x11], le := 0 }).data
          = w5b1.data ++ [0xEE, 0xFF, 0x00, 0x11]) := by
  constructor
  · exact poll_request_chaining.1 7609 3072 3072 parseAPDU w5s0 [w5app] _ .contact _
      rfl ⟨rfl, rfl⟩ rfl rfl (by decide)
  · exact poll_request_chaining.2 7609 3072 3072 parseAPDU w5s1 [w5app] _ .contact _ w5b1
      0 w5app w5aid [] rfl ⟨rfl, rfl⟩ rfl rfl rfl (by decide) rfl rfl rfl (by decide)
      (by decide)

theorem apdu_type_error_eq (cmd : Command) (e : PanicKind)
    (h : apdu_type cmd = .error e) : e = .aidUnwrap := by
  unfold apdu_type at h
  split at h
  · split at h
    · exact Except.noConfusion h
    · injection h with h1
      exact h1.symm
  · split at h <;> exact Except.noConfusion h

theorem respondOn_error_eq (s : DispatchState) (i : Interface) (m : List Nat)
    (e : PanicKind) (h : respondOn s i m = .error e) : e = .respondExpect := by
  unfold respondOn at h
  split at h
  · exact Except.noConfusion h
  · injection h with h1
    exact h1.symm

theorem reply_error_error_eq (s : DispatchState) (sw : Nat) (e : PanicKind)
    (h : reply_error s sw = .error e) : e = .respondExpect := by
  unfold reply_error at h
  split at h
  · exact Except.noConfusion h
  · injection h with h1
    subst h1
    exact respondOn_error_eq _ _ _ _ (by assumption)

theorem buffer_request_isRequest (C : Nat) (buf : RawApduBuffer) (cmd : Command) :
    (buffer_request C buf cmd).isRequest = true := by
  cases buf <;> rfl

theorem handle_reply_error_eq (N R : Nat) (s : DispatchState) (e : PanicKind)
    (h : handle_reply N R s = .error e) :
    e = .respondExpect ∨ e = .dataUnwrap := by
  simp only [handle_reply, respondCur] at h
  split at h
  · exact Or.inl (respondOn_error_eq _ _ _ _ h)
  · exact Or.inl (respondOn_error_eq _ _ _ _ h)
  · repeat' split at h
    all_goals first
      | exact Or.inl (respondOn_error_eq _ _ _ _ h)
      | (injection h with h1; exact Or.inr h1.symm)

theorem handle_app_response_error_eq (N R : Nat) (s : DispatchState)
    (result : Except Nat (List Nat)) (e : PanicKind)
    (h : handle_app_response N R s result = .error e) :
    e = .respondExpect ∨ e = .dataUnwrap := by
  unfold handle_app_response at h
  split at h
  · exact handle_reply_error_eq _ _ _ _ h
  · exact Or.inl (reply_error_error_eq _ _ _ h)

theorem bcain_error_eq (C : Nat) (s : DispatchState) (cmd : Command) (iface : Interface)
    (e : PanicKind)
    (h : buffer_chained_apdu_if_needed C s cmd iface = .error e) :
    e = .aidUnwrap ∨ e = .respondExpect := by
  simp only [buffer_chained_apdu_if_needed] at h
  repeat' split at h
  all_goals first
    | exact Except.noConfusion h
    | (injection h with h1; subst h1
       exact Or.inl (apdu_type_error_eq _ _ (by assumption)))
    | (injection h with h1; subst h1
       exact Or.inr (respondOn_error_eq _ _ _ _ (by assumption)))

theorem bcain_ok_request (C : Nat) (s : DispatchState) (cmd : Command) (iface : Interface)
    (rt : RequestType) (s' : DispatchState)
    (h : buffer_chained_apdu_if_needed C s cmd iface = .ok (rt, s')) :
    rt = .getResponse ∨ rt = .none ∨ s'.buffer.isRequest = true := by
  simp only [buffer_chained_apdu_if_needed] at h
  repeat' split at h
  all_goals first
    | exact Except.noConfusion h
    | (injection h with h1; injection h1 with h2 h3
       exact Or.inl h2.symm)
    | (injection h with h1; injection h1 with h2 h3
       exact Or.inr (Or.inl h2.symm))
    | (injection h with h1; injection h1 with h2 h3; subst h3
       exact Or.inr (Or.inr (buffer_request_isRequest _ _ _)))

theorem check_error_eq (C : Nat) (P : List Nat → Except FromSliceError Command)
    (s : DispatchState) (e : PanicKind)
    (h : check_for_request C P s = .error e) :
    e = .aidUnwrap ∨ e = .respondExpect := by
  simp only [check_for_request, parse_apdu] at h
  repeat' split at h
  all_goals first
    | exact Except.noConfusion h
    | exact bcain_error_eq _ _ _ _ _ h
    | (injection h with h1; subst h1
       exact Or.inr (respondOn_error_eq _ _ _ _ (by assumption)))

theorem check_ok_request (C : Nat) (P : List Nat → Except FromSliceError Command)
    (s : DispatchState) (rt : RequestType) (s' : DispatchState)
    (h : check_for_request C P s = .ok (rt, s')) :
    rt = .getResponse ∨ rt = .none ∨ s'.buffer.isRequest = true := by
  simp only [check_for_request, parse_apdu] at h
  repeat' split at h
  all_goals first
    | exact Except.noConfusion h
    | exact bcain_ok_request _ _ _ _ _ _ h
    | (injection h with h1; injection h1 with h2 h3
       exact Or.inr (Or.inl h2.symm))

theorem handle_app_select_no_ubs (N R : Nat) (s : DispatchState) (apps : List AppSpec)
    (aid : List Nat) (hbr : s.buffer.isRequest = true) :
    handle_app_select N R s apps aid ≠ .error .unexpectedBufferState := by
  intro h
  obtain ⟨b, hb⟩ : ∃ b, s.buffer = .request b := by
    cases hx : s.buffer with
    | none => rw [hx] at hbr; exact Bool.noConfusion hbr
    | request c => exact ⟨c, rfl⟩
    | response d => rw [hx] at hbr; exact Bool.noConfusion hbr
  simp only [handle_app_select] at h
  rcases hca : s.current_aid with _ | c
  all_goals simp only [hca] at h
  · cases hf : find_app (some aid) apps with
    | none =>
        simp only [hf] at h
        cases hre : reply_error s 0x6A82 with
        | ok s1 => rw [hre] at h; exact Except.noConfusion h
        | error e =>
            rw [hre] at h
            injection h with h1
            have := reply_error_error_eq _ _ _ hre
            rw [h1] at this
            exact PanicKind.noConfusion this
    | some p =>
        obtain ⟨i, app⟩ := p
        simp only [hf, hb] at h
        cases hres : app.select b with
        | ok outd =>
            simp only [hres] at h
            cases hr : handle_app_response N R
                { current_aid := some aid, current_interface := s.current_interface,
                  buffer := RawApduBuffer.request b,
                  was_request_chained := s.was_request_chained,
                  contact := s.contact, contactless := s.contactless }
                (Except.ok outd) with
            | ok s1 => rw [hr] at h; exact Except.noConfusion h
            | error e =>
                rw [hr] at h
                injection h with h1
                have := handle_app_response_error_eq _ _ _ _ _ hr
                rw [h1] at this
                rcases this with h2 | h2 <;> exact PanicKind.noConfusion h2
        | error sw =>
            simp only [hres] at h
            cases hr : handle_app_response N R s (Except.error sw) with
            | ok s1 => rw [hr] at h; exact Except.noConfusion h
            | error e =>
                rw [hr] at h
                injection h with h1
                have := handle_app_response_error_eq _ _ _ _ _ hr
                rw [h1] at this
                rcases this with h2 | h2 <;> exact PanicKind.noConfusion h2
  · by_cases heq : c = aid
    · simp only [heq, eq_self_iff_true, if_true] at h
      cases hf : find_app (some aid) apps with
      | none =>
          simp only [hf] at h
          cases hre : reply_error s 0x6A82 with
          | ok s1 => rw [hre] at h; exact Except.noConfusion h
          | error e =>
              rw [hre] at h
              injection h with h1
              have := reply_error_error_eq _ _ _ hre
              rw [h1] at this
              exact PanicKind.noConfusion this
      | some p =>
          obtain ⟨i, app⟩ := p
          simp only [hf, hb] at h
          cases hres : app.select b with
          | ok outd =>
              simp only [hres] at h
              cases hr : handle_app_response N R
                  { current_aid := some aid, current_interface := s.current_interface,
                    buffer := RawApduBuffer.request b,
                    was_request_chained := s.was_request_chained,
                    contact := s.contact, contactless := s.contactless }
                  (Except.ok outd) with
              | ok s1 => rw [hr] at h; exact Except.noConfusion h
              | error e =>
                  rw [hr] at h
                  injection h with h1
                  have := handle_app_response_error_eq _ _ _ _ _ hr
                  rw [h1] at this
                  rcases this with h2 | h2 <;> exact PanicKind.noConfusion h2
          | error sw =>
              simp only [hres] at h
              cases hr : handle_app_response N R s (Except.error sw) with
              | ok s1 => rw [hr] at h; exact Except.noConfusion h
              | error e =>
                  rw [hr] at h
                  injection h with h1
                  have := handle_app_response_error_eq _ _ _ _ _ hr
                  rw [h1] at this
                  rcases this with h2 | h2 <;> exact PanicKind.noConfusion h2
    · simp only [if_neg heq] at h
      cases hfc : find_app (some c) apps with
      | none =>
          simp only [hfc] at h
          injection h with h1
          exact PanicKind.noConfusion h1
      | some p =>
          obtain ⟨i0, app0⟩ := p
          simp only [hfc] at h
          cases hf : find_app (some aid) apps with
          | none =>
              simp only [hf] at h
              cases hre : reply_error { s with current_aid := Option.none } 0x6A82 with
              | ok s1 => rw [hre] at h; exact Except.noConfusion h
              | error e =>
                  rw [hre] at h
                  injection h with h1
                  have := reply_error_error_eq _ _ _ hre
                  rw [h1] at this
                  exact PanicKind.noConfusion this
          | some q =>
              obtain ⟨i, app⟩ := q
              simp only [hf, hb] at h
              cases hres : app.select b with
              | ok outd =>
                  simp only [hres] at h
                  cases hr : handle_app_response N R
                      { current_aid := some aid, current_interface := s.current_interface,
                        buffer := RawApduBuffer.request b,
                        was_request_chained := s.was_request_chained,
                        contact := s.contact, contactless := s.contactless }
                      (Except.ok outd) with
                  | ok s1 => rw [hr] at h; exact Except.noConfusion h
                  | error e =>
                      rw [hr] at h
                      injection h with h1
                      have := handle_app_response_error_eq _ _ _ _ _ hr
                      rw [h1] at this
                      rcases this with h2 | h2 <;> exact PanicKind.noConfusion h2
              | error sw =>
                  simp only [hres] at h
                  cases hr : handle_app_response N R
                      { current_aid := Option.none, current_interface := s.current_interface,
                        buffer := RawApduBuffer.request b,
                        was_request_chained := s.was_request_chained,
                        contact := s.contact, contactless := s.contactless }
                      (Except.error sw) with
                  | ok s1 => rw [hr] at h; exact Except.noConfusion h
                  | error e =>
                      rw [hr] at h
                      injection h with h1
                      have := handle_app_response_error_eq _ _ _ _ _ hr
                      rw [h1] at this
                      rcases this with h2 | h2 <;> exact PanicKind.noConfusion h2

theorem handle_app_command_no_ubs (N R : Nat) (s : DispatchState) (apps : List AppSpec)
    (hbr : s.buffer.isRequest = true) :
    handle_app_command N R s apps ≠ .error .unexpectedBufferState := by
  intro h
  obtain ⟨b, hb⟩ : ∃ b, s.buffer = .request b := by
    cases hx : s.buffer with
    | none => rw [hx] at hbr; exact Bool.noConfusion hbr
    | request c => exact ⟨c, rfl⟩
    | response d => rw [hx] at hbr; exact Bool.noConfusion hbr
  simp only [handle_app_command] at h
  cases hf : find_app s.current_aid apps with
  | none =>
      simp only [hf] at h
      cases hre : reply_error s 0x6A82 with
      | ok s1 => rw [hre] at h; exact Except.noConfusion h
      | error e =>
          rw [hre] at h
          injection h with h1
          have := reply_error_error_eq _ _ _ hre
          rw [h1] at this
          exact PanicKind.noConfusion this
  | some p =>
      obtain ⟨i, app⟩ := p
      simp only [hf, hb] at h
      cases hr : handle_app_response N R s (app.call s.current_interface b) with
      | ok s1 => rw [hr] at h; exact Except.noConfusion h
      | error e =>
          rw [hr] at h
          injection h with h1
          have := handle_app_response_error_eq _ _ _ _ _ hr
          rw [h1] at this
          rcases this with h2 | h2 <;> exact PanicKind.noConfusion h2

theorem handle_reply_no_ubs (N R : Nat) (s : DispatchState) :
    handle_reply N R s ≠ .error .unexpectedBufferState := by
  intro h
  rcases handle_reply_error_eq N R s _ h with h1 | h1 <;> exact PanicKind.noConfusion h1

theorem poll_no_ubs (C N R : Nat) (P : List Nat → Except FromSliceError Command)
    (s : DispatchState) (apps : List AppSpec) :
    poll C N R P s apps ≠ .error .unexpectedBufferState := by
  intro h
  cases hc : check_for_request C P s with
  | error e =>
      simp only [poll, hc, Except.error.injEq] at h
      rw [h] at hc
      rcases check_error_eq C P s _ hc with h2 | h2 <;> exact PanicKind.noConfusion h2
  | ok p =>
      obtain ⟨rt, s1⟩ := p
      have hreq := check_ok_request C P s rt s1 hc
      cases rt with
      | select aid =>
          have hbr : s1.buffer.isRequest = true := by
            rcases hreq with h2 | h2 | h2
            · exact RequestType.noConfusion h2
            · exact RequestType.noConfusion h2
            · exact h2
          simp only [poll, hc] at h
          cases hs : handle_app_select N R s1 apps aid with
          | ok p2 =>
              obtain ⟨s2, evs⟩ := p2
              simp only [hs] at h
              exact Except.noConfusion h
          | error e =>
              simp only [hs, Except.error.injEq] at h
              rw [h] at hs
              exact handle_app_select_no_ubs N R s1 apps aid hbr hs
      | getResponse =>
          simp only [poll, hc] at h
          cases hs : handle_reply N R s1 with
          | ok s2 =>
              simp only [hs] at h
              exact Except.noConfusion h
          | error e =>
              simp only [hs, Except.error.injEq] at h
              rw [h] at hs
              exact handle_reply_no_ubs N R s1 hs
      | newCommand =>
          have hbr : s1.buffer.isRequest = true := by
            rcases hreq with h2 | h2 | h2
            · exact RequestType.noConfusion h2
            · exact RequestType.noConfusion h2
            · exact h2
          simp only [poll, hc] at h
          cases hs : handle_app_command N R s1 apps with
          | ok p2 =>
              obtain ⟨s2, evs⟩ := p2
              simp only [hs] at h
              exact Except.noConfusion h
          | error e =>
              simp only [hs, Except.error.injEq] at h
              rw [h] at hs
              exact handle_app_command_no_ubs N R s1 apps hbr hs
      | none =>
          simp only [poll, hc] at h
          exact Except.noConfusion h

/-- C8: along every sequence of environment and poll steps from the
initial state, the dispatcher never reaches the
`"Unexpected buffer state."` panic of `handle_app_select` or
`handle_app_command`: whenever a request is classified as a SELECT or
an ordinary command, the buffer holds a request. -/
theorem runFromInit_no_unexpected_buffer_panic (C N R : Nat)
    (P : List Nat → Except FromSliceError Command) (steps : List Step) :
    isUnexpectedBufferPanic (runFromInit C N R P steps) = false := by
  suffices hgen : ∀ (steps : List Step) (s : DispatchState),
      isUnexpectedBufferPanic (runSteps C N R P s steps) = false by
    exact hgen steps DispatchState.initial
  intro steps
  induction steps with
  | nil => intro s; rfl
  | cons st rest ih =>
      intro s
      cases st with
      | post i msg => exact ih (envPost s i msg)
      | collect i => exact ih (envCollect s i)
      | poll apps =>
          simp only [runSteps]
          cases hp : poll C N R P s apps with
          | ok p =>
              obtain ⟨s2, evs, r⟩ := p
              exact ih s2
          | error e =>
              cases he : e with
              | unexpectedBufferState =>
                  rw [he] at hp
                  exact absurd hp (poll_no_ubs C N R P s apps)
              | findAppUnwrap => rfl
              | aidUnwrap => rfl
              | dataUnwrap => rfl
              | respondExpect => rfl

end ApduDispatch
